import Mathlib

/-!
Shallow embedding of the NeoDNS repository (src/dns_server.py and
src/sqlite_database.py) and proofs about the frozen claims.

Modelling conventions:
* Python strings are Lean `String`s; the Python string operations used by the
  code (`split`, `join`, `strip`, slicing, `endswith`) are re-implemented
  structurally below so concrete evaluations reduce in the kernel.
* `socket.inet_pton` is embedded following the glibc `inet_pton4`/`inet_pton6`
  algorithms (CPython on Linux delegates to libc).
* External effects (public DNS lookup via dnspython, `avahi-resolve`
  subprocess, the upstream UDP forward, and the current time) are inputs,
  collected in an `Env` record.
* The SQLite table `domain_resolutions` is a list of rows; SQL statements are
  translated to list operations.  `fetchone` on an un-ordered SELECT is the
  first matching row of the list.
* Python exceptions are `Except String` results; a raising call propagates the
  error, and state committed before the raise is kept.
* `dns.message.Message.set_rcode` in dnspython mutates the message and returns
  `None`; the chained expression `make_response(query).set_rcode(...)`
  therefore evaluates to Python `None`, modelled as `Option.none`.
* `threading.Thread(target=..., args=...).start()` calls on
  `store_ip_in_db` are modelled as running synchronously at the point the
  thread is started (the claims do not depend on interleavings).
-/

/-- One component of a Python `str.split(sep)` decomposition.  Matches CPython:
`"".split('.') = [""]`, separators produce empty components. -/
def splitOnCharList (sep : Char) : List Char → List (List Char)
  | [] => [[]]
  | c :: rest =>
    match splitOnCharList sep rest with
    | [] => [[]]
    | t :: ts => if c = sep then [] :: t :: ts else (c :: t) :: ts

/-- Python `s.split(sep)` for a one-character separator. -/
def pySplit (sep : Char) (s : String) : List String :=
  (splitOnCharList sep s.toList).map (fun l => String.mk l)

/-- Python `sep.join(parts)`. -/
def pyJoin (sep : String) : List String → String
  | [] => ""
  | [x] => x
  | x :: y :: xs => x ++ sep ++ pyJoin sep (y :: xs)

/-- Does list `l` start with `p`? -/
def startsWithL : List Char → List Char → Bool
  | _, [] => true
  | [], _ :: _ => false
  | a :: as, b :: bs => a == b && startsWithL as bs

/-- Python `s.endswith(suffix)`. -/
def strEndsWith (s suffix : String) : Bool :=
  startsWithL s.toList.reverse suffix.toList.reverse

/-- Python slice `s[:n]` (first `n` characters). -/
def pyTake (n : Nat) (s : String) : String :=
  String.mk (s.toList.take n)

/-- Python `s.strip('.')`: remove leading and trailing dots. -/
def stripDots (s : String) : String :=
  String.mk (((s.toList.dropWhile (· == '.')).reverse.dropWhile (· == '.')).reverse)

/-- Python `s.strip()`: remove leading and trailing whitespace. -/
def pyStripWs (s : String) : String :=
  String.mk (((s.toList.dropWhile Char.isWhitespace).reverse.dropWhile
    Char.isWhitespace).reverse)

/-- Python truthiness of an optional string (`if subdomain:`): `None` and the
empty string are falsy. -/
def optTruthy : Option String → Bool
  | none => false
  | some s => s != ""

/-- Python `str(x)` for a fetched DB value that is a string or `None`. -/
def pyStrOpt : Option String → String
  | none => "None"
  | some s => s

/- ### socket.inet_pton, after glibc -/

/-- Decimal value of a digit string. -/
def digitsVal (cs : List Char) : Nat :=
  cs.foldl (fun a c => a * 10 + (c.toNat - 48)) 0

/-- One dotted-quad octet as accepted by glibc `inet_pton4`: at least one
digit, no leading zero (except the single digit "0"), value at most 255. -/
def validOctet (s : String) : Bool :=
  let cs := s.toList
  !cs.isEmpty && cs.all Char.isDigit &&
    (cs.length == 1 || cs.head? != some '0') &&
    decide (digitsVal cs ≤ 255)

/-- glibc `inet_pton4`: exactly four valid octets separated by dots. -/
def inet_pton4 (s : String) : Bool :=
  let parts := pySplit '.' s
  parts.length == 4 && parts.all validOctet

/-- Value of a hexadecimal digit. -/
def hexVal (c : Char) : Option Nat :=
  if '0' ≤ c ∧ c ≤ '9' then some (c.toNat - '0'.toNat)
  else if 'a' ≤ c ∧ c ≤ 'f' then some (c.toNat - 'a'.toNat + 10)
  else if 'A' ≤ c ∧ c ≤ 'F' then some (c.toNat - 'A'.toNat + 10)
  else none

/-- Main loop of glibc `inet_pton6`.  State: remaining input, current token
start (`curtok`), accumulated group value, hex digits seen in the current
group, bytes written so far, whether a `::` has been seen. -/
def pton6Loop : List Char → List Char → Nat → Nat → Nat → Bool → Bool
  | [], _, _, xdigs, bytes, colonSeen =>
    if xdigs > 0 then
      if bytes + 2 > 16 then false
      else if colonSeen then bytes + 2 < 16 else bytes + 2 == 16
    else
      if colonSeen then bytes < 16 else bytes == 16
  | c :: rest, curtok, val, xdigs, bytes, colonSeen =>
    match hexVal c with
    | some d =>
      if xdigs == 4 then false
      else
        let val2 := val * 16 + d
        if val2 > 0xffff then false
        else pton6Loop rest curtok val2 (xdigs + 1) bytes colonSeen
    | none =>
      if c = ':' then
        if xdigs == 0 then
          if colonSeen then false
          else pton6Loop rest rest val 0 bytes true
        else if rest.isEmpty then false
        else if bytes + 2 > 16 then false
        else pton6Loop rest rest 0 0 (bytes + 2) colonSeen
      else if c = '.' then
        if bytes + 4 ≤ 16 && inet_pton4 (String.mk curtok) then
          if colonSeen then bytes + 4 < 16 else bytes + 4 == 16
        else false
      else false

/-- glibc `inet_pton6`, including the special handling of a leading `::`. -/
def inet_pton6 (s : String) : Bool :=
  match s.toList with
  | [] => false
  | ':' :: rest =>
    match rest with
    | ':' :: _ => pton6Loop rest rest 0 0 0 false
    | _ => false
  | cs => pton6Loop cs cs 0 0 0 false

/-- Result kind of `is_valid_ip` (the Python function returns the strings
"IPv4" / "IPv6" or `None`; only the branch taken matters). -/
inductive IpKind | v4 | v6
deriving DecidableEq

/-- `is_valid_ip` from src/dns_server.py (lines 36-46): try
`inet_pton(AF_INET, ip)`, then `inet_pton(AF_INET6, ip)`. -/
def is_valid_ip (ip : String) : Option IpKind :=
  if inet_pton4 ip then some .v4
  else if inet_pton6 ip then some .v6
  else none

example : inet_pton4 "192.168.1.10" = true := by decide
example : inet_pton4 "192.168.01.10" = false := by decide
example : inet_pton4 "256.1.1.1" = false := by decide
example : inet_pton6 "::1" = true := by decide
example : inet_pton6 "1:2:3:4:5:6:7:8" = true := by decide
example : inet_pton6 "1:2:3:4:5:6:7:8:9" = false := by decide
example : inet_pton6 "::ffff:1.2.3.4" = true := by decide
example : inet_pton6 "db.internal" = false := by decide
example : is_valid_ip "203.0.113.5" = some .v4 := by decide
example : is_valid_ip "home.test" = none := by decide

/- ### src/sqlite_database.py -/

/-- A row of the `domain_resolutions` table.  `subdomain = none` is SQL NULL. -/
structure Row where
  domain : String
  subdomain : Option String
  ip : String
  timestamp : Nat
deriving DecidableEq

/-- The table state. -/
abbrev Db := List Row

/-- The key a Python call with optional `subdomain` addresses: the functions
branch on `if subdomain:` (truthiness), using `subdomain = ?` when truthy and
`subdomain IS NULL` otherwise. -/
def pyKey (s : Option String) : Option String :=
  if optTruthy s then s else none

/-- Does row `r` match `domain` and the (normalised) subdomain key `k`?
SQL `subdomain = ?` never matches NULL rows, and `subdomain IS NULL` matches
exactly the NULL rows, which is what `Option` equality gives. -/
def keyMatchb (domain : String) (k : Option String) (r : Row) : Bool :=
  r.domain == domain && r.subdomain == k

/-- `create_db` (src/sqlite_database.py lines 12-31): removes the database
file if it exists and recreates the empty table.  `start_dns_server`
(src/dns_server.py line 199) calls this before serving. -/
def create_db (_db : Db) : Db := ([] : List Row)

/-- `get_ip_from_db` (src/sqlite_database.py lines 34-47): SELECT ip for the
key, `fetchone`, returning the ip or `None`. -/
def get_ip_from_db (domain : String) (subdomain : Option String) (db : Db) :
    Option String :=
  ((db : List Row).find? (keyMatchb domain (pyKey subdomain))).map (·.ip)

/-- `store_ip_in_db` (src/sqlite_database.py lines 50-79): DELETE any row with
the same key, then INSERT the new row with the current timestamp. -/
def store_ip_in_db (now : Nat) (domain : String) (subdomain : Option String)
    (ip : String) (db : Db) : Db :=
  ((db : List Row).filter (fun r => !keyMatchb domain (pyKey subdomain) r)) ++
    [⟨domain, pyKey subdomain, ip, now⟩]

/-- `check_if_resolution_valid` (src/sqlite_database.py lines 81-110): SELECT
the timestamp for the key; if a row exists and is older than 5 minutes,
DELETE it and return False — but the DELETE statement always has two
placeholders (`domain = ? AND subdomain = ?`) while the parameter tuple is
`(domain,)` when `subdomain` is falsy, so sqlite3 raises `ProgrammingError`
(incorrect number of bindings) in that case, before any commit. -/
def check_if_resolution_valid (now : Nat) (domain : String)
    (subdomain : Option String) (db : Db) : Except String Bool × Db :=
  match List.find? (keyMatchb domain (pyKey subdomain)) db with
  | some r =>
    if (now : Int) - (r.timestamp : Int) > 300 then
      if optTruthy subdomain then
        (.ok false, db.filter (fun q => !keyMatchb domain (pyKey subdomain) q))
      else
        (.error "sqlite3.ProgrammingError", db)
    else (.ok true, db)
  | none => (.ok false, db)

/- ### src/dns_server.py data model -/

/-- A parsed incoming query (`dns.message.from_wire(data)`), reduced to what
the handler reads: the text of the first question's name (dnspython renders
it with a trailing dot). -/
structure Query where
  rawName : String
deriving DecidableEq

/-- A DNS answer rrset as built by `create_dns_record`: name, record type
(A or AAAA), TTL and address text. -/
structure RRset where
  name : String
  kind : IpKind
  ttl : Nat
  ip : String
deriving DecidableEq

/-- A response message, reduced to the fields the claims are about: the
question name it responds to (copied by `dns.message.make_response`), the
response code (0 = NOERROR, 2 = SERVFAIL) and the answer section.
`to_wire()` is treated as a faithful (injective) encoding, so theorems are
stated on messages rather than wire bytes. -/
structure Message where
  respQname : String
  rcode : Nat
  answer : List RRset
deriving DecidableEq

/-- `dns.message.make_response(query)`: NOERROR, empty answer section. -/
def make_response (q : Query) : Message := ⟨q.rawName, 0, []⟩

/-- Result of the `subprocess.run(['avahi-resolve', '--name', host], ...)`
call: either a completed process (return code and stdout) or a raised
exception (e.g. the binary is missing). -/
inductive AvahiResult
  | ok (returncode : Int) (stdout : String)
  | exc (msg : String)

/-- The external world the server interacts with:
* `now` — `int(time.time())`;
* `resolveA` — the dnspython `dns.resolver.resolve(name, 'A')` lookup:
  `some ip` is the text of the first answer, `none` means the lookup raised
  (NXDOMAIN, NoAnswer or any other `DNSException`);
* `avahi` — the `avahi-resolve` subprocess;
* `upstream` — `dns.query.udp(query, '8.8.8.8')`: `some m` is the upstream
  response, `none` means the call raised (e.g. timeout). -/
structure Env where
  now : Nat
  resolveA : String → Option String
  avahi : String → AvahiResult
  upstream : Query → Option Message

/-- `get_ip_or_domain` (src/dns_server.py lines 48-58): pass IP literals
through unchanged; otherwise resolve, and on any resolution failure return
the input unchanged. -/
def get_ip_or_domain (env : Env) (s : String) : String :=
  if (is_valid_ip s).isSome then s
  else
    match env.resolveA s with
    | some ip => ip
    | none => s

/-- `create_dns_record` (src/dns_server.py lines 61-81): build an A or AAAA
rrset with the given TTL, or raise `ValueError` when the address is neither
a valid IPv4 nor IPv6 literal. -/
def create_dns_record (domain : String) (ttl : Nat) (ip : String) :
    Except String RRset :=
  match is_valid_ip ip with
  | some k => .ok ⟨domain, k, ttl, ip⟩
  | none => .error "ValueError: Invalid IP address format"

/-- `separate_domain_and_subdomain` (src/dns_server.py lines 166-174). -/
def separate_domain_and_subdomain (qname : String) : Option String × String :=
  if (pySplit '.' qname).length > 2 then
    (some (pyJoin "." ((pySplit '.' qname).take ((pySplit '.' qname).length - 2))),
     pyJoin "." ((pySplit '.' qname).drop ((pySplit '.' qname).length - 2)))
  else
    (none, qname)

/- ### src/dns_server.py handler -/

/-- Outcome of the config search loop in `handle_dns_query`
(src/dns_server.py lines 92-115).  The loop takes the configured domains in
order; for each it first compares `qname == domain`, then checks the
subdomain case, and acts on the first hit. -/
inductive MatchResult
  | exact (domain target : String)
  | sub (domain subname target : String)
  | noMatch
deriving DecidableEq

/-- Configuration of one special domain: its `ip` target and its `subdomains`
mapping (a Python dict, insertion-ordered with unique keys). -/
structure DomainConfig where
  ip : String
  subdomains : List (String × String)
deriving DecidableEq

/-- The loaded YAML configuration: `special_domains`, insertion-ordered. -/
structure Config where
  special_domains : List (String × DomainConfig)
deriving DecidableEq

/-- The subdomain part extracted at src/dns_server.py line 106:
`qname[:len(qname) - len(domain) - 1]`. -/
def subPart (qname domain : String) : String :=
  pyTake (qname.toList.length - domain.toList.length - 1) qname

/-- The decision made by the search loop of `handle_dns_query`: first domain
(in configured order) that matches, per-domain exact before subdomain. -/
def matchQuery : List (String × DomainConfig) → String → MatchResult
  | [], _ => .noMatch
  | (d, cd) :: rest, q =>
    if q = d then .exact d cd.ip
    else if strEndsWith q ("." ++ d) then
      match cd.subdomains.lookup (subPart q d) with
      | some t => .sub d (subPart q d) t
      | none => matchQuery rest q
    else matchQuery rest q

/-- Does configured domain `d` (with config `cd`) claim query name `q`,
either exactly or as one of its configured subdomains?  This is the per-item
hit condition of the search loop. -/
def domMatchesb (q d : String) (cd : DomainConfig) : Bool :=
  q == d ||
    (strEndsWith q ("." ++ d) && (cd.subdomains.lookup (subPart q d)).isSome)

/-- The hit one iteration of the search loop produces for configured domain
`d` on query name `q`: the exact match when `q = d`, else the subdomain
match when `q` ends in `.d` and the extracted part is configured, else no
hit.  `domMatchesb q d cd = true` exactly when this is not `noMatch`. -/
def domHit (q d : String) (cd : DomainConfig) : MatchResult :=
  if q = d then .exact d cd.ip
  else if strEndsWith q ("." ++ d) then
    match cd.subdomains.lookup (subPart q d) with
    | some t => .sub d (subPart q d) t
    | none => .noMatch
  else .noMatch

/-- `create_dns_entry` (src/dns_server.py lines 176-195): consult the cache;
on a valid hit compare the cached address with the configured target,
re-resolving the target when they differ and reusing the cached value when
they agree; on no valid entry resolve the target.  Then build the response
with one record (TTL 3600) for the full queried name and store the decided
address (the store thread is started only after `create_dns_record`
succeeded, so a ValueError leaves the cache untouched). -/
def create_dns_entry (env : Env) (ip : String) (query : Query)
    (domain : String) (subdomain : Option String) (db : Db) :
    Except String Message × Db :=
  match check_if_resolution_valid env.now domain subdomain db with
  | (.error e, db1) => (.error e, db1)
  | (.ok valid, db1) =>
    let ip1 :=
      if valid then
        let old := pyStrOpt (get_ip_from_db domain subdomain db1)
        if old != ip then get_ip_or_domain env ip else old
      else get_ip_or_domain env ip
    let full_domain :=
      if optTruthy subdomain then (subdomain.getD "") ++ "." ++ domain
      else domain
    match create_dns_record full_domain 3600 ip1 with
    | .error e => (.error e, db1)
    | .ok ans =>
      (.ok ⟨query.rawName, 0, [ans]⟩,
       store_ip_in_db env.now domain subdomain ip1 db1)

/-- `resolve_mdns` (src/dns_server.py lines 128-153): run `avahi-resolve`;
on success parse the second tab-separated field of stdout and build the
entry; every failure path evaluates
`dns.message.make_response(query).set_rcode(SERVFAIL)`, whose value is
Python `None` because `set_rcode` mutates and returns `None` — so the
function returns `None` (`Option.none`) on failure.  The bare `except`
also converts exceptions raised inside `create_dns_entry` into `None`. -/
def resolve_mdns (env : Env) (ip_host : String) (query : Query)
    (domain : String) (subdomain : Option String) (db : Db) :
    Option Message × Db :=
  match env.avahi ip_host with
  | .exc _ => (none, db)
  | .ok rc stdout =>
    if rc == 0 then
      match (pySplit '\t' (pyStripWs stdout)).get? 1 with
      | none => (none, db)
      | some ip =>
        if (is_valid_ip ip).isSome then
          match create_dns_entry env ip query domain subdomain db with
          | (.ok m, db1) => (some m, db1)
          | (.error _, db1) => (none, db1)
        else (none, db)
    else (none, db)

/-- `resolve_dns_entry` (src/dns_server.py lines 155-164): on a valid cache
hit serve from the cache via `create_dns_entry`; otherwise resolve the name
(unused for the response) and forward the query upstream.  The store thread
at line 163 starts only when no earlier statement raised. -/
def resolve_dns_entry (env : Env) (qname : String) (query : Query) (db : Db) :
    Except String Message × Db :=
  let sd := separate_domain_and_subdomain qname
  let subdomain := sd.1
  let domain := sd.2
  match check_if_resolution_valid env.now domain subdomain db with
  | (.error e, db1) => (.error e, db1)
  | (.ok true, db1) =>
    let ip := pyStrOpt (get_ip_from_db domain subdomain db1)
    match create_dns_entry env ip query domain subdomain db1 with
    | (.error e, db2) => (.error e, db2)
    | (.ok m, db2) => (.ok m, store_ip_in_db env.now domain subdomain ip db2)
  | (.ok false, db1) =>
    let ip := get_ip_or_domain env qname
    match env.upstream query with
    | some m => (.ok m, store_ip_in_db env.now domain subdomain ip db1)
    | none => (.error "upstream exception", db1)

/-- The two return sites of the matched `.local` branch in `handle_dns_query`
(lines 98-99 and 111-112): `resolve_mdns` followed by `response.to_wire()`,
which raises `AttributeError` when `resolve_mdns` returned `None`. -/
def mdnsDispatch (env : Env) (target : String) (query : Query)
    (domain : String) (subdomain : Option String) (db : Db) :
    Except String Message × Db :=
  match resolve_mdns env target query domain subdomain db with
  | (some m, db1) => (.ok m, db1)
  | (none, db1) =>
    (.error "AttributeError: NoneType object has no attribute to_wire", db1)

/-- `handle_dns_query` (src/dns_server.py lines 84-126): parse the query,
strip dots from the question name, search the configuration (see
`matchQuery`), dispatch matched names to `resolve_mdns` or
`create_dns_entry` depending on whether the target ends in `.local`, and
forward unmatched names — only that forwarding path is guarded by a
try/except that degrades to a SERVFAIL response. -/
def handle_dns_query (env : Env) (config : Config) (query : Query) (db : Db) :
    Except String Message × Db :=
  match matchQuery config.special_domains (stripDots query.rawName) with
  | .exact d t =>
    if strEndsWith t ".local" then mdnsDispatch env t query d none db
    else create_dns_entry env t query d none db
  | .sub d s t =>
    if strEndsWith t ".local" then mdnsDispatch env t query d (some s) db
    else create_dns_entry env t query d (some s) db
  | .noMatch =>
    match resolve_dns_entry env (stripDots query.rawName) query db with
    | (.ok m, db1) => (.ok m, db1)
    | (.error _, db1) => (.ok ⟨query.rawName, 2, []⟩, db1)

/- ### Auxiliary definitions for the theorems -/

/-- The cache key of a row. -/
def keyOf (r : Row) : String × Option String := (r.domain, r.subdomain)

/-- At most one live entry per (domain, subdomain-or-NULL) key. -/
def UniqKeys (db : Db) : Prop :=
  db.Pairwise (fun a b => keyOf a ≠ keyOf b)

/-- An environment where every external interaction fails: public DNS lookups
raise, `avahi-resolve` is unavailable, the upstream forward raises. -/
def envDefault : Env :=
  ⟨0, fun _ => none, fun _ => .exc "unavailable", fun _ => none⟩

/- ### Claims -/

/-- Claim C1.  The claim states that the cache validity check never raises,
in particular also when the key has no subdomain.  The code contradicts this
(and its own docstring "remove entry if older than 5 minutes"): for an
expired entry whose key has no subdomain, the DELETE statement supplies one
binding for two placeholders and sqlite3 raises `ProgrammingError`, leaving
the entry in place.  The second conjunct shows the intended behaviour does
happen when the key has a subdomain: `found=false` and the entry deleted. -/
theorem c1_expired_read_without_subdomain_raises :
    check_if_resolution_valid 301 "c1.test" none
      [⟨"c1.test", none, "1.2.3.4", 0⟩]
      = (.error "sqlite3.ProgrammingError", [⟨"c1.test", none, "1.2.3.4", 0⟩]) ∧
    check_if_resolution_valid 301 "c1.test" (some "x")
      [⟨"c1.test", some "x", "1.2.3.4", 0⟩]
      = (.ok false, ([] : Db)) :=
  ⟨rfl, rfl⟩

/-- Claim C2, counterexample.  A matched domain whose configured target is a
name that fails to resolve: `get_ip_or_domain` passes the name through
unchanged, `create_dns_record` raises `ValueError`, and nothing catches it,
so `handle_dns_query` raises instead of producing response bytes — refuting
"for every parseable query, the query handler returns well-formed response
bytes and never raises". -/
theorem c2_counterexample_matched_unresolvable_target_raises :
    handle_dns_query envDefault ⟨[("home.test", ⟨"db.internal", []⟩)]⟩
      ⟨"home.test."⟩ []
      = (.error "ValueError: Invalid IP address format", ([] : Db)) :=
  rfl

/-- Claim C3, counterexample.  `x.a.com` is itself a configured domain (with
target `9.9.9.9`), but the earlier-listed domain `a.com` configures `x` as a
subdomain (target `5.6.7.8`); the search loop answers with the earlier
domain's subdomain match, refuting "a query name equal to some configured
domain is always answered as an exact-domain match, never as a subdomain
match of another (earlier-listed) domain". -/
theorem c3_counterexample_exact_domain_shadowed_by_earlier_subdomain :
    matchQuery [("a.com", ⟨"1.2.3.4", [("x", "5.6.7.8")]⟩),
                ("x.a.com", ⟨"9.9.9.9", []⟩)] "x.a.com"
      = .sub "a.com" "x" "5.6.7.8" ∧
    List.lookup "x.a.com"
      [("a.com", (⟨"1.2.3.4", [("x", "5.6.7.8")]⟩ : DomainConfig)),
       ("x.a.com", ⟨"9.9.9.9", []⟩)] = some ⟨"9.9.9.9", []⟩ ∧
    handle_dns_query ⟨50, fun _ => none, fun _ => .exc "unavailable", fun _ => none⟩
      ⟨[("a.com", ⟨"1.2.3.4", [("x", "5.6.7.8")]⟩), ("x.a.com", ⟨"9.9.9.9", []⟩)]⟩
      ⟨"x.a.com."⟩ []
      = (.ok ⟨"x.a.com.", 0, [⟨"x.a.com", .v4, 3600, "5.6.7.8"⟩]⟩,
         [⟨"a.com", some "x", "5.6.7.8", 50⟩]) :=
  ⟨rfl, rfl, rfl⟩

/-- Claim C4.  The claim (and the spec) say the handler responds with a
server-failure response when local-network resolution fails.  In the code,
every failure path of `resolve_mdns` returns the value of
`make_response(query).set_rcode(SERVFAIL)`, which is `None` because
`set_rcode` mutates and returns `None` (the un-matched forwarding path uses
`set_rcode` correctly as a statement); `handle_dns_query` then raises
`AttributeError` on `response.to_wire()`.  Evaluated here at a non-zero
`avahi-resolve` return code. -/
theorem c4_avahi_failure_raises_instead_of_servfail :
    handle_dns_query ⟨0, fun _ => none, fun _ => .ok 1 "", fun _ => none⟩
      ⟨[("home.test", ⟨"printer.local", []⟩)]⟩ ⟨"home.test."⟩ []
      = (.error "AttributeError: NoneType object has no attribute to_wire",
         ([] : Db)) :=
  rfl

/-- Claim C5.  The decision logic of `create_dns_entry` matches the claim,
but in the claim's "no valid cache entry exists" case the code raises when
the invalid entry is an expired one under a key with no subdomain: the
validity check's broken DELETE (see C1) raises `sqlite3.ProgrammingError`
before the configured target is ever given to the Address Resolver, and no
record is served. -/
theorem c5_expired_nosub_matched_entry_raises :
    create_dns_entry ⟨301, fun _ => none, fun _ => .exc "unavailable", fun _ => none⟩
      "10.0.0.2" ⟨"c5.test."⟩ "c5.test" none [⟨"c5.test", none, "10.0.0.1", 0⟩]
      = (.error "sqlite3.ProgrammingError", [⟨"c5.test", none, "10.0.0.1", 0⟩]) :=
  rfl

/-- Claim C8.  Exact-match scenario: configuration maps `home.test` to the
literal `192.168.1.10` with no subdomains; on an empty cache, a query for
`home.test` yields a NOERROR response whose answer section is exactly one
IPv4 (A) record for the full queried name `home.test` with address
`192.168.1.10` and TTL 3600 (and the address is cached). -/
theorem c8_exact_match_scenario :
    handle_dns_query ⟨1000, fun _ => none, fun _ => .exc "unavailable", fun _ => none⟩
      ⟨[("home.test", ⟨"192.168.1.10", []⟩)]⟩ ⟨"home.test."⟩ []
      = (.ok ⟨"home.test.", 0, [⟨"home.test", .v4, 3600, "192.168.1.10"⟩]⟩,
         [⟨"home.test", none, "192.168.1.10", 1000⟩]) :=
  rfl

/-- Claim C10.  `start_dns_server` begins by calling `create_db`
(src/dns_server.py line 199), which removes any existing database file and
recreates the table empty; whatever the cache held before the restart, every
read afterwards returns no address and every validity check reports not
valid, for every key. -/
theorem c10_restart_empties_cache (db0 : Db) (now : Nat) (d : String)
    (s : Option String) :
    create_db db0 = ([] : Db) ∧
    get_ip_from_db d s (create_db db0) = none ∧
    check_if_resolution_valid now d s (create_db db0) = (.ok false, ([] : Db)) :=
  ⟨rfl, rfl, rfl⟩

/- ### Helper lemmas -/

/-- The search loop skips every configured domain that does not claim the
query name (neither exactly nor as a configured subdomain). -/
theorem matchQuery_skip (pre rest : List (String × DomainConfig)) (q : String)
    (h : ∀ p ∈ pre, domMatchesb q p.1 p.2 = false) :
    matchQuery (pre ++ rest) q = matchQuery rest q := by
  induction pre with
  | nil => rfl
  | cons hd tl ih =>
    obtain ⟨d, cd⟩ := hd
    have hh := h (d, cd) (List.mem_cons_self _ _)
    have htl : ∀ p ∈ tl, domMatchesb q p.1 p.2 = false :=
      fun p hp => h p (List.mem_cons_of_mem _ hp)
    unfold domMatchesb at hh
    obtain ⟨h1, h2⟩ := Bool.or_eq_false_iff.mp hh
    have hne : ¬(q = d) := by simpa using h1
    simp only [List.cons_append]
    conv_lhs => unfold matchQuery
    rw [if_neg hne]
    by_cases he : strEndsWith q ("." ++ d) = true
    · rw [if_pos he]
      cases hl : cd.subdomains.lookup (subPart q d) with
      | none => exact ih htl
      | some t => rw [he, hl] at h2; simp at h2
    · rw [if_neg he]
      exact ih htl

/-- A configured domain that claims the query name (exactly or as one of its
configured subdomains) stops the search loop with its own hit. -/
theorem matchQuery_cons_hit (d : String) (cd : DomainConfig)
    (post : List (String × DomainConfig)) (q : String)
    (h : domMatchesb q d cd = true) :
    matchQuery ((d, cd) :: post) q = domHit q d cd ∧
    domHit q d cd ≠ .noMatch := by
  by_cases h1 : q = d
  · constructor
    · unfold matchQuery domHit
      rw [if_pos h1, if_pos h1]
    · unfold domHit
      rw [if_pos h1]
      simp
  · unfold domMatchesb at h
    rw [Bool.or_eq_true] at h
    rcases h with h | h
    · exact absurd (by simpa using h) h1
    · rw [Bool.and_eq_true] at h
      obtain ⟨he, hs⟩ := h
      cases hl : cd.subdomains.lookup (subPart q d) with
      | none => rw [hl] at hs; simp at hs
      | some t =>
        constructor
        · unfold matchQuery domHit
          rw [if_neg h1, if_neg h1, if_pos he, if_pos he, hl]
        · unfold domHit
          rw [if_neg h1, if_pos he, hl]
          simp

/-- Key uniqueness survives any row deletion. -/
theorem uniqKeys_filter (db : Db) (p : Row → Bool) (h : UniqKeys db) :
    UniqKeys (db.filter p) :=
  List.Pairwise.sublist (List.filter_sublist db) h

/-- The state after `check_if_resolution_valid` is either unchanged or the
old state with the addressed key's rows deleted. -/
theorem check_snd_cases (now : Nat) (d : String) (s : Option String) (db : Db) :
    (check_if_resolution_valid now d s db).2 = db ∨
    (check_if_resolution_valid now d s db).2 =
      db.filter (fun q => !keyMatchb d (pyKey s) q) := by
  unfold check_if_resolution_valid
  split
  · split
    · split
      · right; rfl
      · left; rfl
    · left; rfl
  · left; rfl

/-- Claim C2, amended.  The claim "never raises" fails on matched entries
(see the counterexample); what does hold is that every query matched by no
configured domain (neither exactly nor as a configured subdomain) is handled
by the forwarding path, whose try/except absorbs every resolution failure
into a pass-through or a SERVFAIL response, so the handler returns
well-formed response bytes. -/
theorem c2_amended_unmatched_queries_never_raise (env : Env) (config : Config)
    (query : Query) (db : Db)
    (h : ∀ p ∈ config.special_domains,
      domMatchesb (stripDots query.rawName) p.1 p.2 = false) :
    ∃ m db1, handle_dns_query env config query db = (.ok m, db1) := by
  have hm : matchQuery config.special_domains (stripDots query.rawName)
      = .noMatch := by
    have := matchQuery_skip config.special_domains []
      (stripDots query.rawName) h
    rwa [List.append_nil] at this
  unfold handle_dns_query
  rw [hm]
  rcases hr : resolve_dns_entry env (stripDots query.rawName) query db
    with ⟨res, db1⟩
  cases res with
  | ok m => exact ⟨m, db1, rfl⟩
  | error e => exact ⟨⟨query.rawName, 2, []⟩, db1, rfl⟩

/-- Witness for C2 amended: a query matching nothing in a one-domain
configuration is answered without raising. -/
theorem c2_amended_witness :
    ∃ m db1,
      handle_dns_query envDefault ⟨[("site.example", ⟨"10.9.8.7", []⟩)]⟩
        ⟨"other.example."⟩ [] = (.ok m, db1) :=
  c2_amended_unmatched_queries_never_raise envDefault
    ⟨[("site.example", ⟨"10.9.8.7", []⟩)]⟩ ⟨"other.example."⟩ [] (by decide)

/-- Claim C3, amended.  Matching iterates configured domains in order,
checking for each domain the exact match and then the subdomain match, and
returns the first hit.  First conjunct: when no domain listed before `(d, cd)`
claims the query name, and `(d, cd)` does claim it, the result is `(d, cd)`'s
own hit (`domHit`) — in particular, a query name equal to a later-listed
configured domain is answered with the earlier claimant's match; its second
clause is the special case that a query name equal to `d` with no earlier
claimant is answered as the exact-domain match.  Second conjunct: a query
name equal to any configured domain is never `noMatch`. -/
theorem c3_amended_first_claimant_decides
    (l pre post : List (String × DomainConfig)) (d : String) (cd : DomainConfig)
    (q : String) :
    ((∀ p ∈ pre, domMatchesb q p.1 p.2 = false) →
      (domMatchesb q d cd = true →
        matchQuery (pre ++ (d, cd) :: post) q = domHit q d cd ∧
        domHit q d cd ≠ .noMatch) ∧
      (q = d → matchQuery (pre ++ (d, cd) :: post) q = .exact d cd.ip)) ∧
    ((d, cd) ∈ l → q = d → matchQuery l q ≠ .noMatch) := by
  constructor
  · intro hpre
    constructor
    · intro hhit
      rw [matchQuery_skip pre ((d, cd) :: post) q hpre]
      exact matchQuery_cons_hit d cd post q hhit
    · intro hq
      rw [matchQuery_skip pre ((d, cd) :: post) q hpre]
      unfold matchQuery
      rw [if_pos hq]
  · intro hmem hq
    subst hq
    induction l with
    | nil => cases hmem
    | cons hd tl ih =>
      obtain ⟨d2, cd2⟩ := hd
      by_cases h1 : q = d2
      · unfold matchQuery
        rw [if_pos h1]
        simp
      · have htl : (q, cd) ∈ tl := by
          rcases List.mem_cons.mp hmem with heq | htl
          · exact absurd (congrArg Prod.fst heq) h1
          · exact htl
        by_cases h2 : strEndsWith q ("." ++ d2) = true
        · cases hl : cd2.subdomains.lookup (subPart q d2) with
          | some t =>
            unfold matchQuery
            rw [if_neg h1, if_pos h2, hl]
            simp
          | none =>
            unfold matchQuery
            rw [if_neg h1, if_pos h2, hl]
            exact ih htl
        · unfold matchQuery
          rw [if_neg h1, if_neg h2]
          exact ih htl

/-- Witness for C3 amended, exercising all three clauses: the earlier
claimant `a.com` answers `x.a.com` with its subdomain hit; `mine.com`,
unclaimed by the earlier domain, is answered as an exact-domain match; and a
query equal to the configured domain `x.a.com` is not `noMatch` even though
an earlier domain claims it. -/
theorem c3_amended_decides_witness :
    matchQuery [("other.com", ⟨"1.1.1.1", []⟩),
                ("a.com", ⟨"1.2.3.4", [("x", "5.6.7.8")]⟩)] "x.a.com"
      = .sub "a.com" "x" "5.6.7.8" ∧
    matchQuery [("other.com", ⟨"1.1.1.1", []⟩), ("mine.com", ⟨"2.2.2.2", []⟩)]
      "mine.com" = .exact "mine.com" "2.2.2.2" ∧
    matchQuery [("a.com", ⟨"1.2.3.4", [("x", "5.6.7.8")]⟩),
                ("x.a.com", ⟨"9.9.9.9", []⟩)] "x.a.com" ≠ .noMatch :=
  ⟨((((c3_amended_first_claimant_decides [] [("other.com", ⟨"1.1.1.1", []⟩)] []
        "a.com" ⟨"1.2.3.4", [("x", "5.6.7.8")]⟩ "x.a.com").1 (by decide)).1
        (by decide)).1).trans (by decide),
   (((c3_amended_first_claimant_decides [] [("other.com", ⟨"1.1.1.1", []⟩)] []
        "mine.com" ⟨"2.2.2.2", []⟩ "mine.com").1 (by decide)).2) rfl,
   (c3_amended_first_claimant_decides
      [("a.com", ⟨"1.2.3.4", [("x", "5.6.7.8")]⟩), ("x.a.com", ⟨"9.9.9.9", []⟩)]
      [] [] "x.a.com" ⟨"9.9.9.9", []⟩ "x.a.com").2 (by decide) rfl⟩

/-- Claim C6.  The Address Resolver returns a syntactically valid IPv4 or
IPv6 literal unchanged; when the public lookup of a non-literal fails it
returns the input unchanged without raising; in either case the resolver is
a fixed point under repeated application. -/
theorem c6_resolver_passthrough (env : Env) (s : String) :
    ((is_valid_ip s).isSome → get_ip_or_domain env s = s) ∧
    (env.resolveA s = none → get_ip_or_domain env s = s) ∧
    (((is_valid_ip s).isSome ∨ env.resolveA s = none) →
      get_ip_or_domain env (get_ip_or_domain env s) = get_ip_or_domain env s) := by
  have h1 : (is_valid_ip s).isSome = true → get_ip_or_domain env s = s := by
    intro h
    unfold get_ip_or_domain
    rw [if_pos h]
  have h2 : env.resolveA s = none → get_ip_or_domain env s = s := by
    intro h
    unfold get_ip_or_domain
    by_cases hv : (is_valid_ip s).isSome = true
    · rw [if_pos hv]
    · rw [if_neg hv, h]
  refine ⟨h1, h2, fun h => ?_⟩
  have hs : get_ip_or_domain env s = s := by
    rcases h with h | h
    · exact h1 h
    · exact h2 h
  conv_lhs => rw [hs]

/-- Witness for C6: the IPv4 literal `203.0.113.5` passes through unchanged,
and an unresolvable name is a fixed point. -/
theorem c6_witness :
    get_ip_or_domain envDefault "203.0.113.5" = "203.0.113.5" ∧
    get_ip_or_domain envDefault "unresolvable.example" = "unresolvable.example" ∧
    get_ip_or_domain envDefault (get_ip_or_domain envDefault "unresolvable.example")
      = get_ip_or_domain envDefault "unresolvable.example" :=
  ⟨(c6_resolver_passthrough envDefault "203.0.113.5").1 (by decide),
   (c6_resolver_passthrough envDefault "unresolvable.example").2.1 rfl,
   (c6_resolver_passthrough envDefault "unresolvable.example").2.2 (Or.inr rfl)⟩

/-- Claim C7.  Starting from a cache with unique keys, a put keeps keys
unique, leaves the new address with the current timestamp as the only row
for its key (delete-then-insert: replace, never duplicate), and the validity
check (which at most deletes the addressed key's rows) keeps keys unique;
`get_ip_from_db` does not modify the table at all. -/
theorem c7_cache_key_uniqueness (now : Nat) (d : String) (s : Option String)
    (ip : String) (db : Db) (h : UniqKeys db) :
    UniqKeys (store_ip_in_db now d s ip db) ∧
    (⟨d, pyKey s, ip, now⟩ : Row) ∈ store_ip_in_db now d s ip db ∧
    (∀ r ∈ store_ip_in_db now d s ip db, keyOf r = (d, pyKey s) →
      r = ⟨d, pyKey s, ip, now⟩) ∧
    UniqKeys (check_if_resolution_valid now d s db).2 := by
  refine ⟨?_, ?_, ?_, ?_⟩
  · unfold store_ip_in_db UniqKeys
    rw [List.pairwise_append]
    refine ⟨List.Pairwise.sublist (List.filter_sublist db) h,
      List.pairwise_singleton _ _, ?_⟩
    intro a ha b hb
    rw [List.mem_singleton] at hb
    subst hb
    have ha2 := (List.mem_filter.mp ha).2
    simp only [Bool.not_eq_true', keyMatchb, Bool.and_eq_false_iff,
      beq_eq_false_iff_ne, ne_eq] at ha2
    intro hk
    simp only [keyOf, Prod.mk.injEq] at hk
    rcases ha2 with ha2 | ha2
    · exact ha2 hk.1
    · exact ha2 hk.2
  · exact List.mem_append_right _ (List.mem_singleton_self _)
  · intro r hr hk
    rcases List.mem_append.mp hr with hl | hrr
    · exfalso
      have h2 := (List.mem_filter.mp hl).2
      simp only [Bool.not_eq_true', keyMatchb, Bool.and_eq_false_iff,
        beq_eq_false_iff_ne, ne_eq] at h2
      simp only [keyOf, Prod.mk.injEq] at hk
      rcases h2 with h2 | h2
      · exact h2 hk.1
      · exact h2 hk.2
    · exact List.mem_singleton.mp hrr
  · rcases check_snd_cases now d s db with hc | hc
    · rw [hc]; exact h
    · rw [hc]; exact uniqKeys_filter db _ h

/-- Witness for C7: storing a no-subdomain entry into a one-row cache keeps
keys unique and the new row present. -/
theorem c7_witness :
    UniqKeys (store_ip_in_db 10 "w.test" none "2.2.2.2"
      [⟨"w.test", some "a", "1.1.1.1", 0⟩]) ∧
    (⟨"w.test", none, "2.2.2.2", 10⟩ : Row) ∈
      store_ip_in_db 10 "w.test" none "2.2.2.2"
        [⟨"w.test", some "a", "1.1.1.1", 0⟩] :=
  ⟨(c7_cache_key_uniqueness 10 "w.test" none "2.2.2.2"
      [⟨"w.test", some "a", "1.1.1.1", 0⟩]
      (List.pairwise_singleton _ _)).1,
   (c7_cache_key_uniqueness 10 "w.test" none "2.2.2.2"
      [⟨"w.test", some "a", "1.1.1.1", 0⟩]
      (List.pairwise_singleton _ _)).2.1⟩

/-- Claim C9.  The decomposition of a query name: with at most two
dot-separated labels, subdomain is absent and the domain is the whole name;
with more, the subdomain is all labels before the last two joined by dots
and the domain is the last two labels joined by a dot. -/
theorem c9_separate_domain_and_subdomain_labels (q : String) :
    ((pySplit '.' q).length ≤ 2 → separate_domain_and_subdomain q = (none, q)) ∧
    (2 < (pySplit '.' q).length →
      separate_domain_and_subdomain q =
        (some (pyJoin "." ((pySplit '.' q).take ((pySplit '.' q).length - 2))),
         pyJoin "." ((pySplit '.' q).drop ((pySplit '.' q).length - 2)))) := by
  constructor
  · intro hle
    unfold separate_domain_and_subdomain
    rw [if_neg (by omega)]
  · intro hgt
    unfold separate_domain_and_subdomain
    rw [if_pos hgt]

/-- Witness for C9: a four-label name splits into the first two labels as
subdomain and the last two as domain. -/
theorem c9_witness :
    separate_domain_and_subdomain "mail.corp.home.test"
      = (some "mail.corp", "home.test") :=
  ((c9_separate_domain_and_subdomain_labels "mail.corp.home.test").2
    (by decide)).trans (by decide)
